import Mathlib

/-!
Verification of the handwashing dashboard (`src/streamlit_app.py`) against its
natural-language specification.

The development shallowly embeds the program:

* `PyLine` / `indentCheck` / `srcLines` model the Python tokenizer's
  INDENT/DEDENT discipline and the actual logical-line indentation profile of
  the source file, to settle the syntactic-validity claim.
* `Cell` models a pandas cell value: a finite numeric (exact rational standing
  for the float), the IEEE special values NaN, +inf and -inf, or a string.
  Arithmetic on `Cell` follows IEEE-754 special-value rules (pandas numeric
  columns are float64).
* `DataFrame` is a column-ordered association list from column name to cells;
  `get_handwashing_data` is the loader, mirroring the source line by line.
* `Row` / `filtered` / `pivotCell` / `computeMetric` model the filter mask,
  the pivot_table cell lookup, and the per-clinic metric loop.
* `fmtFixed` / `fmtSigned` model Python `f"{x:.kf}"` and `f"{x:+.kf}"`
  formatting of a float (round-half-even to k decimal digits).
-/

/-- One logical line of a Python module: its starting physical line number,
its indentation in columns, and whether it opens a block (ends in `:` at
statement level, e.g. `if`/`for`/`def`/`else`). Continuation lines of a
multi-line statement are not separate logical lines. -/
structure PyLine where
  lineNo : Nat
  indent : Nat
  opens : Bool
deriving DecidableEq

/-- The CPython tokenizer's indentation discipline: an indentation stack
starts at `[0]`; after a block-opening line the next logical line must be
strictly deeper (push); otherwise a line deeper than the top of the stack is
an unexpected indent (IndentationError), and a dedent must return to an
indentation level already on the stack. Returns the line number of the first
offending logical line, or `none` if the profile is well formed. -/
def indentCheck (stack : List Nat) (expectIndent : Bool) : List PyLine → Option Nat
  | [] => none
  | l :: rest =>
    if expectIndent then
      if stack.headD 0 < l.indent then indentCheck (l.indent :: stack) l.opens rest
      else some l.lineNo
    else if stack.headD 0 < l.indent then some l.lineNo
    else
      let stack' := stack.dropWhile (fun i => l.indent < i)
      if stack'.headD 0 = l.indent then indentCheck stack' l.opens rest
      else some l.lineNo

/-- Line number of the first indentation error of a module body, if any. -/
def firstIndentError (lines : List PyLine) : Option Nat :=
  indentCheck [0] false lines

/-- The logical-line indentation profile of `src/streamlit_app.py`, transcribed
from the source: each entry is (starting physical line, indent, opens-block).
Multi-line statements (e.g. the `st.set_page_config(...)` call on lines 8-11,
the docstring on lines 16-20, the `raise` on lines 32-34, the slider call on
lines 66-71, the mask expression on lines 86-90) appear once, at their first
line. -/
def srcLines : List PyLine :=
  [⟨1, 0, false⟩, ⟨2, 0, false⟩, ⟨3, 0, false⟩, ⟨4, 0, false⟩, ⟨5, 0, false⟩,
   ⟨8, 0, false⟩, ⟨14, 0, false⟩, ⟨15, 0, true⟩, ⟨16, 4, false⟩, ⟨21, 4, false⟩,
   ⟨24, 4, false⟩, ⟨25, 4, false⟩, ⟨28, 4, true⟩, ⟨29, 8, false⟩, ⟨31, 4, true⟩,
   ⟨32, 8, false⟩, ⟨36, 4, false⟩, ⟨39, 4, false⟩, ⟨40, 4, false⟩, ⟨41, 4, false⟩,
   ⟨44, 4, false⟩, ⟨46, 4, false⟩, ⟨49, 0, false⟩, ⟨55, 0, false⟩, ⟨57, 0, false⟩,
   ⟨63, 0, false⟩, ⟨64, 0, false⟩, ⟨66, 0, false⟩, ⟨73, 0, false⟩, ⟨75, 0, false⟩,
   ⟨81, 0, true⟩, ⟨82, 4, false⟩, ⟨86, 0, false⟩, ⟨92, 0, false⟩, ⟨94, 0, true⟩,
   ⟨96, 4, false⟩, ⟨101, 4, false⟩, ⟨104, 4, false⟩, ⟨112, 4, false⟩, ⟨118, 4, false⟩,
   ⟨125, 4, false⟩, ⟨126, 4, false⟩, ⟨128, 4, false⟩, ⟨130, 4, false⟩, ⟨132, 4, true⟩,
   ⟨133, 8, false⟩, ⟨134, 8, true⟩, ⟨136, 12, false⟩, ⟨137, 12, false⟩, ⟨140, 12, true⟩,
   ⟨141, 16, false⟩, ⟨142, 12, true⟩, ⟨143, 16, false⟩, ⟨145, 12, true⟩, ⟨146, 16, false⟩,
   ⟨147, 16, false⟩, ⟨148, 12, true⟩, ⟨150, 16, false⟩, ⟨152, 16, true⟩, ⟨153, 20, false⟩,
   ⟨154, 16, true⟩, ⟨155, 20, false⟩, ⟨156, 20, false⟩, ⟨157, 16, false⟩, ⟨159, 12, false⟩,
   ⟨161, 0, false⟩, ⟨162, 4, false⟩, ⟨163, 4, false⟩, ⟨164, 0, true⟩, ⟨165, 4, false⟩]

/-- A pandas cell value: a finite numeric (exact rational in place of the
float), NaN, signed infinity, or a string (object). -/
inductive Cell where
  | num : ℚ → Cell
  | nan : Cell
  | inf : Cell
  | ninf : Cell
  | str : String → Cell
deriving DecidableEq

/-- Model of np.isnan on a cell. -/
def Cell.isnan : Cell → Bool
  | .nan => true
  | _ => false

/-- Whether the cell is a finite numeric value. -/
def Cell.isNum : Cell → Bool
  | .num _ => true
  | _ => false

/-- Whether the cell is a string (an object cell). The numeric pipeline —
MortalityRate values in particular — never produces string cells. -/
def Cell.isStr : Cell → Bool
  | .str _ => true
  | _ => false

/-- IEEE-style addition on float cells (strings never reach arithmetic in the
pipeline: every arithmetic operand has passed `toNumeric`; the `str` rows are
mapped to NaN and are unreachable in the embedded uses). -/
def Cell.add : Cell → Cell → Cell
  | .num a, .num b => .num (a + b)
  | .inf, .ninf => .nan
  | .ninf, .inf => .nan
  | .inf, .num _ => .inf
  | .num _, .inf => .inf
  | .inf, .inf => .inf
  | .ninf, .num _ => .ninf
  | .num _, .ninf => .ninf
  | .ninf, .ninf => .ninf
  | _, _ => .nan

/-- IEEE-style subtraction on float cells. -/
def Cell.sub : Cell → Cell → Cell
  | .num a, .num b => .num (a - b)
  | .inf, .inf => .nan
  | .ninf, .ninf => .nan
  | .inf, .num _ => .inf
  | .num _, .ninf => .inf
  | .inf, .ninf => .inf
  | .ninf, .num _ => .ninf
  | .num _, .inf => .ninf
  | .ninf, .inf => .ninf
  | _, _ => .nan

/-- IEEE-style multiplication on float cells. -/
def Cell.mul : Cell → Cell → Cell
  | .num a, .num b => .num (a * b)
  | .inf, .num b => if b = 0 then .nan else if 0 < b then .inf else .ninf
  | .num a, .inf => if a = 0 then .nan else if 0 < a then .inf else .ninf
  | .ninf, .num b => if b = 0 then .nan else if 0 < b then .ninf else .inf
  | .num a, .ninf => if a = 0 then .nan else if 0 < a then .ninf else .inf
  | .inf, .inf => .inf
  | .ninf, .ninf => .inf
  | .inf, .ninf => .ninf
  | .ninf, .inf => .ninf
  | _, _ => .nan

/-- IEEE-style division on float cells: a nonzero finite number divided by
zero gives signed infinity, `0/0` gives NaN (this is what pandas/numpy float
division produces). -/
def Cell.div : Cell → Cell → Cell
  | .num a, .num b =>
    if b = 0 then (if a = 0 then .nan else if 0 < a then .inf else .ninf)
    else .num (a / b)
  | .num _, .inf => .num 0
  | .num _, .ninf => .num 0
  | .inf, .num b => if b < 0 then .ninf else .inf
  | .ninf, .num b => if b < 0 then .inf else .ninf
  | _, _ => .nan

/-- Floor of a rational, computed as floor division of numerator by
denominator (the denominator is positive). -/
def ratFloor (q : ℚ) : ℤ := q.num.fdiv q.den

/-- Round a rational to the nearest integer, ties to even — the rounding CPython
uses when formatting a float to a fixed number of decimal digits. -/
def roundHalfEven (q : ℚ) : ℤ :=
  let f := ratFloor q
  let frac := q - (f : ℚ)
  if frac < 1 / 2 then f
  else if 1 / 2 < frac then f + 1
  else if f % 2 = 0 then f else f + 1

/-- Render a scaled nonnegative integer `m` as a decimal numeral with `k`
digits after the point (so `m` stands for `m / 10^k`). -/
def digitsFixed (m : Nat) (k : Nat) : String :=
  let ip := m / 10 ^ k
  let fp := m % 10 ^ k
  let fs := Nat.repr fp
  let fs := String.mk (List.replicate (k - fs.length) '0') ++ fs
  if k = 0 then Nat.repr ip else Nat.repr ip ++ "." ++ fs

/-- Model of Python fixed-point formatting of a float with `k` decimal
digits (the format spec .kf): round half-even at the k-th digit; a negative
value keeps its minus sign even when the digits round to zero. -/
def fmtFixedQ (q : ℚ) (k : Nat) : String :=
  let n := roundHalfEven (q * (10 : ℚ) ^ k)
  let body := digitsFixed n.natAbs k
  if q < 0 then "-" ++ body else body

/-- Model of Python sign-forcing fixed-point formatting (the format spec
+.kf): like `fmtFixedQ` but a nonnegative value is prefixed with a plus. -/
def fmtSignedQ (q : ℚ) (k : Nat) : String :=
  let n := roundHalfEven (q * (10 : ℚ) ^ k)
  let body := digitsFixed n.natAbs k
  (if q < 0 then "-" else "+") ++ body

/-- Fixed-point formatting lifted to cells, following CPython: an infinite
float formats as "inf" or "-inf", NaN as "nan". Strings never reach the
format calls in the embedded code. -/
def Cell.fmtFixed (c : Cell) (k : Nat) : String :=
  match c with
  | .num q => fmtFixedQ q k
  | .inf => "inf"
  | .ninf => "-inf"
  | .nan => "nan"
  | .str _ => ""

/-- Sign-forcing fixed-point formatting lifted to cells. -/
def Cell.fmtSigned (c : Cell) (k : Nat) : String :=
  match c with
  | .num q => fmtSignedQ q k
  | .inf => "+inf"
  | .ninf => "-inf"
  | .nan => "+nan"
  | .str _ => ""

/-- A pandas DataFrame, modelled as an ordered association list from column
name to the list of that column's cells. -/
abbrev DataFrame := List (String × List Cell)

/-- Column access df[name]: the column's cells, or a KeyError when the column
is absent. -/
def getCol (df : DataFrame) (name : String) : Except String (List Cell) :=
  match df.find? (fun p => p.1 = name) with
  | some p => .ok p.2
  | none => .error ("KeyError: " ++ name)

/-- Column assignment df[name] = col: replaces the column in place, or
appends it as a new last column. -/
def setCol (df : DataFrame) (name : String) (col : List Cell) : DataFrame :=
  if df.any (fun p => p.1 = name) then
    df.map (fun p => if p.1 = name then (name, col) else p)
  else df ++ [(name, col)]

/-- Whether the DataFrame has a column of the given name. -/
def hasCol (df : DataFrame) (name : String) : Bool :=
  df.any (fun p => p.1 = name)

/-- The cells of a column when it exists (and `[]` otherwise); used to state
theorems about DataFrames whose columns are known to exist. -/
def colOf (df : DataFrame) (name : String) : List Cell :=
  ((getCol df name).toOption).getD []

/-- Model of pd.to_numeric(col, errors='coerce') on one cell: numeric values
pass through, any non-numeric (string) value is coerced to NaN. Cells that
read_csv already parsed as numbers are `num` (or `inf`/`nan`) cells; a `str`
cell is genuinely non-numeric. -/
def toNumeric : Cell → Cell
  | .num q => .num q
  | .str _ => .nan
  | c => c

/-- Model of Series.astype('Int64') on a float cell: NaN becomes the missing
marker (kept as NaN here), an integral float becomes the integer, and a
non-integral or infinite float raises a cast error. -/
def astypeInt64Cell : Cell → Except String Cell
  | .num q => if q.den = 1 then .ok (.num q)
              else .error "TypeError: cannot safely cast non-equivalent values to Int64"
  | .nan => .ok .nan
  | .inf => .error "TypeError: cannot convert infinite values to integer"
  | .ninf => .error "TypeError: cannot convert infinite values to integer"
  | .str s => .error ("TypeError: object cannot be converted to an IntegerDtype: " ++ s)

/-- Effectful map over a column, as Series.astype applies its conversion to
each cell: the first failing cell aborts with its error. -/
def mapExcept (f : Cell → Except String Cell) : List Cell → Except String (List Cell)
  | [] => .ok []
  | c :: cs => do
    let x ← f c
    let xs ← mapExcept f cs
    pure (x :: xs)

/-- The loader's derived column, from line 44 of the source:
df['MortalityRate'] = (df['Deaths'] / df['Birth']) * 100. -/
def mortalityRate (deaths birth : Cell) : Cell :=
  Cell.mul (Cell.div deaths birth) (Cell.num 100)

/-- Model of get_handwashing_data (lines 36-46 of the source), after the CSV
file has been found and parsed into a DataFrame: coerce Year to nullable
integer, coerce Birth and Deaths to numeric, and add the MortalityRate
column. Note the loader reads the column named "Birth" (not "Births"). -/
def get_handwashing_data (df : DataFrame) : Except String DataFrame := do
  let yearC ← getCol df "Year"
  let yearN ← mapExcept astypeInt64Cell (yearC.map toNumeric)
  let df1 := setCol df "Year" yearN
  let birthC ← getCol df1 "Birth"
  let df2 := setCol df1 "Birth" (birthC.map toNumeric)
  let deathsC ← getCol df2 "Deaths"
  let df3 := setCol df2 "Deaths" (deathsC.map toNumeric)
  let d ← getCol df3 "Deaths"
  let b ← getCol df3 "Birth"
  pure (setCol df3 "MortalityRate" (List.zipWith mortalityRate d b))

/-- The primary data path (lines 24-25): script_dir / 'data' / 'handwashing.csv'. -/
def dataPath1 (scriptDir : String) : String := scriptDir ++ "/data/handwashing.csv"

/-- The fallback data path (line 29): Path('data/handwashing.csv').resolve(),
i.e. the same relative path resolved against the working directory. -/
def dataPath2 (cwd : String) : String := cwd ++ "/data/handwashing.csv"

/-- Model of the path-resolution part of get_handwashing_data (lines 24-34):
try the script-directory path, fall back to the cwd-relative path, and raise
FileNotFoundError naming both paths when neither exists. `pathExists` stands
for the filesystem. -/
def resolveDataPath (scriptDir cwd : String) (pathExists : String → Bool) :
    Except String String :=
  let dataPath := if pathExists (dataPath1 scriptDir) then dataPath1 scriptDir
                  else dataPath2 cwd
  if pathExists dataPath then .ok dataPath
  else .error ("handwashing.csv not found at " ++ dataPath1 scriptDir ++ " or "
               ++ dataPath2 cwd)

/-- One row of the loaded DataFrame, as consumed by the filter, the pivot and
the metrics loop. After loading, `year` is a `num` with integral value or
NaN, `rate` is numeric/NaN/infinite, and `clinic` is whatever the CSV held. -/
structure Row where
  year : Cell
  birth : Cell
  deaths : Cell
  clinic : Cell
  rate : Cell
deriving DecidableEq

/-- Model of the comparison hand_df['Year'] >= from_year on one cell: a
missing (NA/NaN) year compares as false in the boolean mask. -/
def Cell.geInt (c : Cell) (y : ℤ) : Bool :=
  match c with
  | .num q => decide ((y : ℚ) ≤ q)
  | .inf => true
  | _ => false

/-- Model of the comparison hand_df['Year'] <= to_year on one cell. -/
def Cell.leInt (c : Cell) (y : ℤ) : Bool :=
  match c with
  | .num q => decide (q ≤ (y : ℚ))
  | .ninf => true
  | _ => false

/-- The boolean mask of lines 86-90: Clinic isin selected AND Year between
from_year and to_year inclusive. -/
def rowMask (fromYear toYear : ℤ) (selectedClinics : List Cell) (r : Row) : Bool :=
  decide (r.clinic ∈ selectedClinics) && r.year.geInt fromYear && r.year.leInt toYear

/-- Model of the filtered DataFrame of lines 86-90: boolean-mask row
selection, which keeps matching rows in their input order. -/
def filtered (rows : List Row) (fromYear toYear : ℤ) (selectedClinics : List Cell) :
    List Row :=
  rows.filter (rowMask fromYear toYear selectedClinics)

/-- Minimum of a list of rationals, `none` on the empty list. -/
def minQ : List ℚ → Option ℚ
  | [] => none
  | q :: rest =>
    match minQ rest with
    | none => some q
    | some m => some (min q m)

/-- Model of hand_df['Year'].min() on the nullable-integer Year column:
missing values are skipped; the minimum over no values is the missing
marker pd.NA, i.e. `none`. -/
def yearMin (col : List Cell) : Option ℚ :=
  minQ (col.filterMap (fun c => match c with | .num q => some q | _ => none))

/-- Model of line 63, min_year = int(hand_df['Year'].min()): int() of the
missing marker pd.NA raises a TypeError; int() truncates a number toward
zero (Year values are integral, so floor division by the denominator is
exact). -/
def min_year (col : List Cell) : Except String ℤ :=
  match yearMin col with
  | none => .error "TypeError: int() argument must be a number, not NAType"
  | some q => .ok (q.num.fdiv q.den)

/-- Mean of a list of float cells, as pandas aggregates a pivot group:
NaN values are skipped; the mean of no remaining values is NaN; otherwise
the IEEE sum divided by the count. -/
def meanCell (vals : List Cell) : Cell :=
  let kept := vals.filter (fun v => !v.isnan)
  if kept.isEmpty then Cell.nan
  else Cell.div (kept.foldl Cell.add (Cell.num 0)) (Cell.num kept.length)

/-- Whether a row belongs to the pivot group of a given (Year, Clinic) key. -/
def keyMatch (y : ℤ) (c : Cell) (r : Row) : Bool :=
  decide (r.year = Cell.num (y : ℚ)) && decide (r.clinic = c)

/-- One cell of the pivot table of lines 96-98
(filtered.pivot_table(index='Year', columns='Clinic', values='MortalityRate')):
the mean (pivot_table's default aggregation) of the MortalityRate values of
the rows with that (Year, Clinic) key, and an absent cell — `none`, never
zero — when no row has the key. -/
def pivotCell (rows : List Row) (y : ℤ) (c : Cell) : Option Cell :=
  let group := rows.filter (keyMatch y c)
  if group.isEmpty then none else some (meanCell (group.map Row.rate))

/-- Result of one iteration of the metrics loop: the strings passed to
st.metric. -/
structure Metric where
  valueStr : String
  delta : String
  deltaColor : String
deriving DecidableEq

/-- Model of the metrics loop body, lines 136-159. The two arguments are the
guarded pivot lookups of lines 136-137: `none` models the guard failing
(from_year not in pivot.index or clinic not in pivot.columns), in which case
the code substitutes np.nan. -/
def computeMetric (firstLookup lastLookup : Option Cell) : Metric :=
  let first_val := firstLookup.getD Cell.nan
  let last_val := lastLookup.getD Cell.nan
  let value_str := if last_val.isnan then "n/a" else last_val.fmtFixed 2 ++ "%"
  if first_val.isnan || last_val.isnan then
    ⟨value_str, "n/a", "off"⟩
  else
    let delta_val := Cell.sub last_val first_val
    if first_val = Cell.num 0 then
      ⟨value_str, delta_val.fmtFixed 2 ++ "pp", "normal"⟩
    else
      ⟨value_str,
       (Cell.mul (Cell.div delta_val first_val) (Cell.num 100)).fmtSigned 1 ++ "%",
       "normal"⟩

/-- Cells on which the Year conversion pipeline
pd.to_numeric(col, errors='coerce').astype('Int64') succeeds: integral
numbers, missing values, and non-numeric strings (which coerce to missing);
non-integral or infinite numbers make astype('Int64') raise. -/
def isIntLike : Cell → Bool
  | .num q => decide (q.den = 1)
  | .nan => true
  | .str _ => true
  | _ => false

/-! ## DataFrame column plumbing lemmas -/

theorem exceptBind_ok {ε α β : Type} (a : α) (f : α → Except ε β) :
    (Except.ok a >>= f : Except ε β) = f a := rfl

theorem find?_eq_none_of_not_hasCol (df : DataFrame) (n : String)
    (h : hasCol df n = false) : df.find? (fun p => p.1 = n) = none := by
  induction df with
  | nil => rfl
  | cons p ps ih =>
    simp only [hasCol, List.any_cons, Bool.or_eq_false_iff] at h
    simp only [List.find?_cons, h.1]
    exact ih (by simp [hasCol, h.2])

theorem find?_append_left {α : Type} (l₁ l₂ : List α) (f : α → Bool) (x : α)
    (h : l₁.find? f = some x) : (l₁ ++ l₂).find? f = some x := by
  induction l₁ with
  | nil => simp [List.find?] at h
  | cons a as ih =>
    simp only [List.cons_append, List.find?_cons] at h ⊢
    cases hf : f a with
    | true => simpa [hf] using h
    | false =>
      simp only [hf] at h ⊢
      exact ih h

theorem find?_append_right {α : Type} (l₁ l₂ : List α) (f : α → Bool)
    (h : l₁.find? f = none) : (l₁ ++ l₂).find? f = l₂.find? f := by
  induction l₁ with
  | nil => rfl
  | cons a as ih =>
    simp only [List.cons_append, List.find?_cons] at h ⊢
    cases hf : f a with
    | true => simp [hf] at h
    | false =>
      simp only [hf] at h ⊢
      exact ih h

theorem find?_map_set (df : DataFrame) (n m : String) (col : List Cell)
    (hnm : m ≠ n) :
    (df.map (fun p => if p.1 = n then (n, col) else p)).find?
        (fun p => decide (p.1 = m))
      = df.find? (fun p => decide (p.1 = m)) := by
  induction df with
  | nil => rfl
  | cons p ps ih =>
    by_cases hp : p.1 = n
    · have hpm : ¬ p.1 = m := by rw [hp]; exact fun hc => hnm hc.symm
      simp only [List.map_cons, if_pos hp, List.find?_cons, decide_eq_false hpm,
        decide_eq_false (fun hc : n = m => hnm hc.symm)]
      exact ih
    · simp only [List.map_cons, if_neg hp, List.find?_cons]
      cases hq : decide (p.1 = m) with
      | true => rfl
      | false => exact ih

theorem find?_map_set_self (df : DataFrame) (n : String) (col : List Cell)
    (h : hasCol df n = true) :
    (df.map (fun p => if p.1 = n then (n, col) else p)).find?
        (fun p => decide (p.1 = n)) = some (n, col) := by
  induction df with
  | nil => simp [hasCol] at h
  | cons p ps ih =>
    by_cases hp : p.1 = n
    · simp [List.find?_cons, if_pos hp]
    · have h' : hasCol ps n = true := by simpa [hasCol, hp] using h
      simp only [List.map_cons, if_neg hp, List.find?_cons, decide_eq_false hp]
      exact ih h'

theorem getCol_of_hasCol (df : DataFrame) (n : String) (h : hasCol df n = true) :
    getCol df n = Except.ok (colOf df n) := by
  induction df with
  | nil => simp [hasCol] at h
  | cons p ps ih =>
    by_cases hp : p.1 = n
    · simp [getCol, colOf, List.find?_cons, hp, Except.toOption]
    · have h' : hasCol ps n = true := by
        simpa [hasCol, hp] using h
      have := ih h'
      simp only [getCol, colOf, List.find?_cons, hp, decide_eq_true_eq] at this ⊢
      simpa [hp] using this

theorem getCol_setCol_same (df : DataFrame) (n : String) (col : List Cell) :
    getCol (setCol df n col) n = Except.ok col := by
  by_cases h : hasCol df n = true
  · simp only [setCol, hasCol] at h ⊢
    rw [if_pos h, getCol, find?_map_set_self df n col (by simpa [hasCol] using h)]
  · have h' : hasCol df n = false := by simpa using h
    simp only [setCol, hasCol] at h' ⊢
    rw [if_neg (by simp [h'])]
    unfold getCol
    rw [find?_append_right _ _ _ (find?_eq_none_of_not_hasCol df n h')]
    simp [List.find?_cons]

theorem getCol_setCol_other (df : DataFrame) (n m : String) (col : List Cell)
    (hnm : m ≠ n) : getCol (setCol df n col) m = getCol df m := by
  by_cases h : hasCol df n = true
  · simp only [setCol, hasCol] at h ⊢
    rw [if_pos h]
    unfold getCol
    rw [find?_map_set df n m col hnm]
  · have h' : hasCol df n = false := by simpa using h
    simp only [setCol, hasCol] at h' ⊢
    rw [if_neg (by simp [h'])]
    unfold getCol
    by_cases hm : hasCol df m = true
    · rcases hfind : df.find? (fun p => p.1 = m) with _ | x
      · exfalso
        have hg : getCol df m = Except.ok (colOf df m) := getCol_of_hasCol df m hm
        simp [getCol, hfind] at hg
      · rw [find?_append_left _ _ _ _ hfind, hfind]
    · have hm' : hasCol df m = false := by simpa using hm
      rw [find?_append_right _ _ _ (find?_eq_none_of_not_hasCol df m hm'),
        find?_eq_none_of_not_hasCol df m hm']
      simp [List.find?_cons, decide_eq_false (fun hc : n = m => hnm hc.symm)]

/-! ## Claim theorems -/

/-- C1: the source file is not syntactically valid Python. Line 161 dedents to
module level inside the `if not filtered.empty:` block and line 162 re-indents
without an intervening block opener, so the tokenizer's indentation check
fails at line 162 (an IndentationError is raised while the module loads) and
no statement of the module — in particular the raw-data table on line 163 and
the empty-selection branch on line 165 — ever executes. -/
theorem C1_source_not_valid_python : firstIndentError srcLines = some 162 := by
  decide

/-- C7: when the CSV exists at neither lookup location, the loader fails with
a FileNotFoundError whose message names both attempted paths. -/
theorem C7_not_found_names_both_paths (scriptDir cwd : String)
    (pathExists : String → Bool)
    (h1 : pathExists (dataPath1 scriptDir) = false)
    (h2 : pathExists (dataPath2 cwd) = false) :
    resolveDataPath scriptDir cwd pathExists =
      Except.error ("handwashing.csv not found at " ++ dataPath1 scriptDir
        ++ " or " ++ dataPath2 cwd) := by
  simp [resolveDataPath, h1, h2]

/-- Witness for C7 at a concrete script directory, working directory and an
empty filesystem. -/
theorem C7_witness :
    resolveDataPath "/app" "/cwd" (fun _ => false) =
      Except.error
        "handwashing.csv not found at /app/data/handwashing.csv or /cwd/data/handwashing.csv" :=
  C7_not_found_names_both_paths "/app" "/cwd" (fun _ => false) rfl rfl

theorem mapM_astype_ok (col : List Cell) (h : ∀ c ∈ col, isIntLike c = true) :
    mapExcept astypeInt64Cell (col.map toNumeric) = Except.ok (col.map toNumeric) := by
  induction col with
  | nil => rfl
  | cons c cs ih =>
    have hc := h c (List.mem_cons_self c cs)
    have ht : astypeInt64Cell (toNumeric c) = Except.ok (toNumeric c) := by
      cases c with
      | num q =>
        simp only [isIntLike, decide_eq_true_eq] at hc
        simp [toNumeric, astypeInt64Cell, hc]
      | nan => rfl
      | str s => rfl
      | inf => simp [isIntLike] at hc
      | ninf => simp [isIntLike] at hc
    have ih' := ih (fun x hx => h x (List.mem_cons_of_mem c hx))
    simp [mapExcept, ht, ih', exceptBind_ok]

/-- C2 (corrected): the derived MortalityRate is Deaths/Births×100 when
Births > 0; but when Births = 0 the pandas float division yields NaN only for
Deaths = 0 (or missing Deaths) — for Deaths > 0 it yields +inf and for
Deaths < 0 it yields -inf, a defined non-NaN value. -/
theorem C2_mortality_rate (d b : ℚ) :
    (0 < b → mortalityRate (Cell.num d) (Cell.num b) = Cell.num (d / b * 100))
    ∧ (mortalityRate (Cell.num d) (Cell.num 0) =
        if d = 0 then Cell.nan else if 0 < d then Cell.inf else Cell.ninf)
    ∧ mortalityRate Cell.nan (Cell.num b) = Cell.nan := by
  refine ⟨fun hb => ?_, ?_, ?_⟩
  · simp [mortalityRate, Cell.div, Cell.mul, hb.ne']
  · by_cases hd : d = 0
    · simp [mortalityRate, Cell.div, Cell.mul, hd]
    · by_cases hdp : 0 < d
      · simp [mortalityRate, Cell.div, Cell.mul, hd, hdp]
      · simp [mortalityRate, Cell.div, Cell.mul, hd, hdp]
  · simp [mortalityRate, Cell.div, Cell.mul]

/-- Witness for C2 on the dataset's first row (237 deaths, 3036 births). -/
theorem C2_witness :
    mortalityRate (Cell.num 237) (Cell.num 3036) = Cell.num (237 / 3036 * 100) :=
  (C2_mortality_rate 237 3036).1 (by norm_num)

/-- Counterexample to C2 as stated: running the loader on a record with
Births = 0 and Deaths = 1 produces a MortalityRate of +inf, which is not
NaN, so the claim "undefined/NaN when Births = 0" fails on the code. -/
theorem C2_counterexample :
    (do
        let out ← get_handwashing_data
          [("Year", [Cell.num 1841]), ("Birth", [Cell.num 0]),
           ("Deaths", [Cell.num 1]), ("Clinic", [Cell.str "A"])]
        getCol out "MortalityRate") = Except.ok [Cell.inf]
    ∧ Cell.inf ≠ Cell.nan :=
  ⟨rfl, by decide⟩

/-- Counterexample to C3 as stated: a CSV with the exact columns the claim
names — Year, Births, Deaths, Clinic — makes the loader fail with a KeyError,
because line 40 of the source reads the column 'Birth', not 'Births'. -/
theorem C3_counterexample :
    get_handwashing_data
      [("Year", [Cell.num 1841]), ("Births", [Cell.num 3036]),
       ("Deaths", [Cell.num 237]), ("Clinic", [Cell.str "A"])]
      = Except.error "KeyError: Birth" := rfl

/-- C3 (corrected): the loader succeeds on every CSV that contains columns
named Year, Birth, Deaths, Clinic (case-exact) whose Year cells are integral
numbers, missing, or non-numeric, and it coerces every non-numeric
Year/Birth/Deaths value to missing (`toNumeric` maps strings to NaN) rather
than failing. -/
theorem C3_loader_success (df : DataFrame)
    (hY : hasCol df "Year" = true) (hB : hasCol df "Birth" = true)
    (hD : hasCol df "Deaths" = true) (_hC : hasCol df "Clinic" = true)
    (hint : ∀ c ∈ colOf df "Year", isIntLike c = true) :
    ∃ out, get_handwashing_data df = Except.ok out
      ∧ colOf out "Year" = (colOf df "Year").map toNumeric
      ∧ colOf out "Birth" = (colOf df "Birth").map toNumeric
      ∧ colOf out "Deaths" = (colOf df "Deaths").map toNumeric := by
  have gY := getCol_of_hasCol df "Year" hY
  have hmap := mapM_astype_ok (colOf df "Year") hint
  set yn := (colOf df "Year").map toNumeric with hyn
  set df1 := setCol df "Year" yn with hdf1
  have gB : getCol df1 "Birth" = Except.ok (colOf df "Birth") := by
    rw [hdf1, getCol_setCol_other df "Year" "Birth" _ (by decide)]
    exact getCol_of_hasCol df "Birth" hB
  set bn := (colOf df "Birth").map toNumeric with hbn
  set df2 := setCol df1 "Birth" bn with hdf2
  have gD : getCol df2 "Deaths" = Except.ok (colOf df "Deaths") := by
    rw [hdf2, getCol_setCol_other df1 "Birth" "Deaths" _ (by decide), hdf1,
      getCol_setCol_other df "Year" "Deaths" _ (by decide)]
    exact getCol_of_hasCol df "Deaths" hD
  set dn := (colOf df "Deaths").map toNumeric with hdn
  set df3 := setCol df2 "Deaths" dn with hdf3
  have gD3 : getCol df3 "Deaths" = Except.ok dn := by
    rw [hdf3]; exact getCol_setCol_same df2 "Deaths" dn
  have gB3 : getCol df3 "Birth" = Except.ok bn := by
    rw [hdf3, getCol_setCol_other df2 "Deaths" "Birth" _ (by decide), hdf2]
    exact getCol_setCol_same df1 "Birth" bn
  refine ⟨setCol df3 "MortalityRate" (List.zipWith mortalityRate dn bn),
    ?_, ?_, ?_, ?_⟩
  · simp only [get_handwashing_data, gY, exceptBind_ok, ← hyn, hmap, ← hdf1,
      gB, ← hbn, ← hdf2, gD, ← hdn, ← hdf3, gD3, gB3]
    rfl
  · simp only [colOf]
    rw [getCol_setCol_other df3 "MortalityRate" "Year" _ (by decide),
      hdf3, getCol_setCol_other df2 "Deaths" "Year" _ (by decide), hdf2,
      getCol_setCol_other df1 "Birth" "Year" _ (by decide), hdf1,
      getCol_setCol_same df "Year" yn]
    rfl
  · simp only [colOf]
    rw [getCol_setCol_other df3 "MortalityRate" "Birth" _ (by decide), gB3]
    rfl
  · simp only [colOf]
    rw [getCol_setCol_other df3 "MortalityRate" "Deaths" _ (by decide), gD3]
    rfl

/-- Witness for C3: a concrete CSV with the corrected column names, a
non-numeric Deaths value and a non-numeric Year value, on which the loader
succeeds and coerces both to missing. -/
theorem C3_witness :
    ∃ out, get_handwashing_data
        [("Year", [Cell.num 1841, Cell.str "bad"]),
         ("Birth", [Cell.num 3036, Cell.num 4010]),
         ("Deaths", [Cell.num 237, Cell.str "x"]),
         ("Clinic", [Cell.str "A", Cell.str "A"])] = Except.ok out
      ∧ colOf out "Year" =
          [Cell.num 1841, Cell.str "bad"].map toNumeric
      ∧ colOf out "Birth" =
          [Cell.num 3036, Cell.num 4010].map toNumeric
      ∧ colOf out "Deaths" =
          [Cell.num 237, Cell.str "x"].map toNumeric :=
  C3_loader_success _ (by decide) (by decide) (by decide) (by decide)
    (by decide)

/-- Auxiliary: rounding an integer-valued rational returns that integer. -/
theorem roundHalfEven_intCast (n : ℤ) : roundHalfEven ((n : ℚ)) = n := by
  simp only [roundHalfEven, ratFloor, Rat.num_intCast, Rat.den_intCast,
    Int.fdiv_one, sub_self]
  norm_num

/-- Auxiliary: evaluating the sign-forcing formatter on a negative rational
whose scaled value is the integer n. -/
theorem fmtSignedQ_eval_neg (q : ℚ) (n : ℤ) (k : Nat) (hq : q < 0)
    (h : q * 10 ^ k = (n : ℚ)) :
    fmtSignedQ q k = "-" ++ digitsFixed n.natAbs k := by
  simp only [fmtSignedQ]
  rw [h, roundHalfEven_intCast, if_pos hq]

/-- Auxiliary: evaluating the fixed formatter on a nonnegative rational whose
scaled value is the integer n. -/
theorem fmtFixedQ_eval_nonneg (q : ℚ) (n : ℤ) (k : Nat) (hq : ¬ q < 0)
    (h : q * 10 ^ k = (n : ℚ)) :
    fmtFixedQ q k = digitsFixed n.natAbs k := by
  simp only [fmtFixedQ]
  rw [h, roundHalfEven_intCast, if_neg hq]

/-- C4: with both year-boundary values present, the delta is the absolute
difference formatted to two decimals with suffix "pp" when the first value is
exactly zero, and otherwise the relative change ((last − first)/first)×100
formatted to one decimal with a forced sign and suffix "%"; in particular
first=2, last=1 gives "-50.0%" and first=0, last=1.5 gives "1.50pp". -/
theorem C4_delta_convention (first last : ℚ) :
    (first = 0 →
      (computeMetric (some (Cell.num first)) (some (Cell.num last))).delta =
        fmtFixedQ (last - first) 2 ++ "pp")
    ∧ (first ≠ 0 →
      (computeMetric (some (Cell.num first)) (some (Cell.num last))).delta =
        fmtSignedQ ((last - first) / first * 100) 1 ++ "%")
    ∧ (computeMetric (some (Cell.num 2)) (some (Cell.num 1))).delta = "-50.0%"
    ∧ (computeMetric (some (Cell.num 0)) (some (Cell.num (3 / 2)))).delta =
        "1.50pp" := by
  refine ⟨fun h => ?_, fun h => ?_, ?_, ?_⟩
  · subst h
    simp [computeMetric, Cell.isnan, Cell.sub, Cell.fmtFixed]
  · simp [computeMetric, Cell.isnan, Cell.sub, Cell.div, Cell.mul,
      Cell.fmtSigned, h]
  · have h2 : (2 : ℚ) ≠ 0 := by norm_num
    have hstep : (computeMetric (some (Cell.num 2)) (some (Cell.num 1))).delta =
        fmtSignedQ ((1 - 2) / 2 * 100) 1 ++ "%" := by
      simp [computeMetric, Cell.isnan, Cell.sub, Cell.div, Cell.mul,
        Cell.fmtSigned, h2]
    rw [hstep,
      fmtSignedQ_eval_neg ((1 - 2) / 2 * 100) (-500) 1 (by norm_num) (by norm_num)]
    decide
  · have hstep : (computeMetric (some (Cell.num 0))
          (some (Cell.num (3 / 2)))).delta =
        fmtFixedQ (3 / 2 - 0) 2 ++ "pp" := by
      simp [computeMetric, Cell.isnan, Cell.sub, Cell.fmtFixed]
    rw [hstep,
      fmtFixedQ_eval_nonneg (3 / 2 - 0) 150 2 (by norm_num) (by norm_num)]
    decide

/-- Witness for C4 at first = 0, last = 3/2. -/
theorem C4_witness :
    (computeMetric (some (Cell.num 0)) (some (Cell.num (3 / 2)))).delta =
      fmtFixedQ (3 / 2 - 0) 2 ++ "pp" :=
  (C4_delta_convention 0 (3 / 2)).1 rfl

/-- C5: the metric computation is total on missing exact-year lookups — a
missing (or NaN) last value displays the sentinel "n/a" with delta "n/a" and
the off indicator; a present non-NaN last value with a missing first value
displays the last value to two decimals with a percent suffix and delta
"n/a"/off. -/
theorem C5_missing_lookups (firstLookup : Option Cell) (v : Cell)
    (hv : v.isnan = false) :
    computeMetric firstLookup none = ⟨"n/a", "n/a", "off"⟩
    ∧ computeMetric firstLookup (some Cell.nan) = ⟨"n/a", "n/a", "off"⟩
    ∧ computeMetric none (some v) = ⟨v.fmtFixed 2 ++ "%", "n/a", "off"⟩ := by
  refine ⟨?_, ?_, ?_⟩
  · simp [computeMetric, Cell.isnan]
  · simp [computeMetric, Cell.isnan]
  · simp [computeMetric, hv, show Cell.nan.isnan = true from rfl]

/-- Witness for C5: a present last value of 5 with a missing first value. -/
theorem C5_witness :
    computeMetric none (some (Cell.num 5)) =
      ⟨(Cell.num 5).fmtFixed 2 ++ "%", "n/a", "off"⟩ :=
  (C5_missing_lookups none (Cell.num 5) rfl).2.2

/-- C6: the filter keeps exactly the rows whose Clinic is in the selected set
and whose Year lies within [fromYear, toYear] inclusive, it is a sublist of
the input (relative order and multiplicity preserved), and an empty clinic
selection yields an empty result for every year range. -/
theorem C6_filter_semantics (rows : List Row) (fromYear toYear : ℤ)
    (sel : List Cell) :
    List.Sublist (filtered rows fromYear toYear sel) rows
    ∧ (∀ r, r ∈ filtered rows fromYear toYear sel ↔
        r ∈ rows ∧ r.clinic ∈ sel ∧ r.year.geInt fromYear = true
          ∧ r.year.leInt toYear = true)
    ∧ filtered rows fromYear toYear [] = [] := by
  refine ⟨List.filter_sublist _, fun r => ?_, ?_⟩
  · rw [filtered, List.mem_filter]
    simp [rowMask, and_assoc]
  · rw [filtered]
    exact List.filter_eq_nil_iff.mpr (fun r _ => by simp [rowMask])

/-- Auxiliary: filtering twice with the same predicate equals filtering once. -/
theorem filter_twice {α : Type} (p : α → Bool) (l : List α) :
    (l.filter p).filter p = l.filter p := by
  induction l with
  | nil => rfl
  | cons a as ih =>
    by_cases h : p a <;> simp [List.filter_cons, h, ih]

/-- C8: the filter is idempotent — re-filtering its own output with the same
year range and clinic set returns the same rows. -/
theorem C8_filter_idempotent (rows : List Row) (fromYear toYear : ℤ)
    (sel : List Cell) :
    filtered (filtered rows fromYear toYear sel) fromYear toYear sel =
      filtered rows fromYear toYear sel :=
  filter_twice _ _

/-- Auxiliary: a predicate holding for a member of a list with at most one
match makes the filter exactly that singleton. -/
theorem filter_singleton_of_countP {α : Type} (p : α → Bool) (l : List α)
    (r : α) (h1 : l.countP p ≤ 1) (h2 : r ∈ l) (h3 : p r = true) :
    l.filter p = [r] := by
  induction l with
  | nil => cases h2
  | cons a as ih =>
    rcases List.mem_cons.mp h2 with rfl | hmem
    · rw [List.filter_cons_of_pos h3]
      have hz : as.countP p = 0 := by
        rw [List.countP_cons_of_pos _ _ h3] at h1
        omega
      rw [List.filter_eq_nil_iff.mpr (List.countP_eq_zero.mp hz)]
    · by_cases ha : p a = true
      · exfalso
        rw [List.countP_cons_of_pos _ _ ha] at h1
        have hz : as.countP p = 0 := by omega
        exact (List.countP_eq_zero.mp hz) r hmem h3
      · have ha' : ¬ p a := by simpa using ha
        rw [List.filter_cons_of_neg ha']
        rw [List.countP_cons_of_neg _ _ ha'] at h1
        exact ih h1 hmem

/-- Auxiliary: the pivot aggregation of a single non-string rate value is that
value (the mean of one NaN is NaN, of one finite value is itself, of one
infinite value is that infinity). -/
theorem meanCell_single (v : Cell) (hv : v.isStr = false) :
    meanCell [v] = v := by
  cases v with
  | num q =>
    simp [meanCell, Cell.isnan, Cell.add, Cell.div]
  | nan => rfl
  | inf => rfl
  | ninf => rfl
  | str s => simp [Cell.isStr] at hv

/-- C9: for a filtered dataset with at most one row per (Year, Clinic) key
whose rates are float values, the (Year, Clinic) combination of any input row
appears as exactly the cell holding that row's MortalityRate, and a key with
no input row is an absent cell (`none`), never zero. -/
theorem C9_pivot_roundtrip (rows : List Row) (y : ℤ) (c : Cell)
    (hstr : ∀ r ∈ rows, r.rate.isStr = false)
    (huniq : rows.countP (keyMatch y c) ≤ 1) :
    (∀ r ∈ rows, keyMatch y c r = true → pivotCell rows y c = some r.rate)
    ∧ ((∀ r ∈ rows, keyMatch y c r = false) → pivotCell rows y c = none) := by
  constructor
  · intro r hr hkey
    have hfilter := filter_singleton_of_countP (keyMatch y c) rows r huniq hr hkey
    rw [pivotCell, hfilter]
    simp [meanCell_single r.rate (hstr r hr)]
  · intro hall
    rw [pivotCell, List.filter_eq_nil_iff.mpr (fun r hr => by simp [hall r hr])]
    rfl

/-- Witness for C9 on a one-row dataset (Year 1841, Clinic "A", rate 10). -/
theorem C9_witness :
    pivotCell [⟨Cell.num 1841, Cell.num 3036, Cell.num 237, Cell.str "A",
      Cell.num 10⟩] 1841 (Cell.str "A") = some (Cell.num 10) :=
  (C9_pivot_roundtrip
      [⟨Cell.num 1841, Cell.num 3036, Cell.num 237, Cell.str "A", Cell.num 10⟩]
      1841 (Cell.str "A") (by decide) (by decide)).1
    ⟨Cell.num 1841, Cell.num 3036, Cell.num 237, Cell.str "A", Cell.num 10⟩
    (by decide) (by decide)

/-- Auxiliary: a Year column with no finite numeric cell contributes no values
to the minimum. -/
theorem filterMap_num_nil (col : List Cell) (h : ∀ c ∈ col, c.isNum = false) :
    col.filterMap (fun c => match c with | Cell.num q => some q | _ => none)
      = [] := by
  induction col with
  | nil => rfl
  | cons a as ih =>
    have ih' := ih (fun x hx => h x (List.mem_cons_of_mem a hx))
    cases a with
    | num q =>
      exact absurd (h (Cell.num q) (List.mem_cons_self _ _)) (by simp [Cell.isNum])
    | nan => simpa [List.filterMap_cons] using ih'
    | inf => simpa [List.filterMap_cons] using ih'
    | ninf => simpa [List.filterMap_cons] using ih'
    | str s => simpa [List.filterMap_cons] using ih'

/-- C10: when the loaded Year column contains no valid numeric value (an empty
CSV body, or every Year non-numeric and coerced to missing), the slider bound
min_year = int(hand_df['Year'].min()) raises a TypeError — int() of pd.NA —
and startup crashes instead of degrading gracefully. -/
theorem C10_empty_year_crashes (col : List Cell)
    (h : ∀ c ∈ col, c.isNum = false) :
    min_year col =
      Except.error "TypeError: int() argument must be a number, not NAType" := by
  rw [min_year, yearMin, filterMap_num_nil col h]
  rfl

/-- Witness for C10 on a Year column holding a single missing value. -/
theorem C10_witness :
    min_year [Cell.nan] =
      Except.error "TypeError: int() argument must be a number, not NAType" :=
  C10_empty_year_crashes [Cell.nan] (by decide)
